import Mathlib

/-!
Shallow embedding of the LVM volume-management subsystem
(`cinder/brick/lvm.py`, `cinder/volume/utils.py`, `cinder/blk_local/lv_utils.py`).

Conventions of the embedding:
* Python runtime errors (`KeyError`, `IndexError`, uncaught `raise`, ...) are
  modelled by the `PyError` type; fallible code returns `Except PyError`.
* Functions that shell out via `putils.execute` are modelled as functions of
  the raw text output (`out`) those commands produced, and/or as functions
  returning the list of command argument vectors they would execute.
* Python float arithmetic in the mirror-region computation is modelled by
  exact rational arithmetic (`n / 1024.0` is exact in binary floating point
  for all realistic `n`), and `math.ceil(math.log t / math.log 2)` by the
  exact ceiling base-2 logarithm `Int.clog 2`.
-/

namespace Cinder

/-- Python runtime error classes that the embedded code can raise. -/
inductive PyError where
  /-- `KeyError` on a dict lookup; carries the missing key. -/
  | keyError (k : String) : PyError
  /-- `IndexError` on a list subscript. -/
  | indexError : PyError
  /-- `ValueError`, e.g. `int()` on a non-numeric string. -/
  | valueError : PyError
  /-- A bare `raise` with no active exception (`RuntimeError`). -/
  | runtimeError : PyError
  /-- `putils.ProcessExecutionError`: the executed tool returned non-zero. -/
  | processExecutionError : PyError
  deriving Repr, DecidableEq

/-- Split a character list at every character satisfying `p`, keeping empty
fields (the behaviour of splitting on every single separator occurrence). -/
def splitPred (p : Char → Bool) (cs : List Char) : List (List Char) :=
  cs.foldr
    (fun c acc =>
      match acc with
      | f :: rest => if p c then [] :: f :: rest else (c :: f) :: rest
      | [] => [[c]])
    [[]]

/-- Python `str.split()` with no argument: split on runs of whitespace,
dropping empty fields. -/
def pySplit (s : String) : List String :=
  ((splitPred Char.isWhitespace s.toList).filter (fun f => !f.isEmpty)).map
    String.mk

/-- Python `str.split(sep)` for a single-character separator: every
occurrence separates, empty fields are kept. -/
def pySplitSep (sep : Char) (s : String) : List String :=
  (splitPred (fun c => c == sep) s.toList).map String.mk

/-- Python `s[:-1]`: the string without its final character. -/
def strDropLast (s : String) : String :=
  String.mk s.toList.dropLast

/-- One step of decimal-digit accumulation for `int()`. -/
def digitsValAux : List Char → ℕ → Option ℕ
  | [], acc => some acc
  | c :: rest, acc =>
    if c.isDigit then digitsValAux rest (acc * 10 + (c.toNat - 48)) else none

/-- Python `int(s)` restricted to an optional minus sign followed by decimal
digits (the forms the embedded code can meet); anything else raises
`ValueError`, modelled as `none`. -/
def pyInt (s : String) : Option ℤ :=
  match s.toList with
  | [] => none
  | '-' :: rest =>
    match rest with
    | [] => none
    | _ => (digitsValAux rest 0).map (fun m => -(m : ℤ))
  | cs => (digitsValAux cs 0).map (fun m => (m : ℤ))

/-- A Python dict with string keys and values, as an association list
(keys are distinct whenever the embedded code builds one). -/
def Dict := List (String × String)

/-- Python `d[k]` as an `Option` (so that `KeyError` sites are explicit). -/
def dictGet (d : Dict) (k : String) : Option String :=
  match d with
  | [] => none
  | (k₁, v) :: rest => if k₁ = k then some v else dictGet rest k

/-- An LV inventory record as built by `get_all_volumes`
(`{"vg": vg, "name": name, "size": size}`; all three keys always set). -/
structure LVRecord where
  vg : String
  name : String
  size : String
  deriving Repr, DecidableEq

/-- `izip(*[iter(volumes)] * 3)`: group a token list into consecutive
triples, silently dropping the one or two leftover tokens. -/
def chunk3 : List String → List (String × String × String)
  | a :: b :: c :: rest => (a, b, c) :: chunk3 rest
  | _ => []

/-- The `lvs` inventory command built by `LVM.get_all_volumes`. -/
def lvs_cmd (vg_name : Option String) : List String :=
  ["lvs", "--noheadings", "-o", "vg_name,name,size"] ++
    (match vg_name with | some v => [v] | none => [])

/-- `LVM.get_all_volumes` applied to the raw `lvs` output: `out.split()`
followed by triple-grouping via `izip`. Never raises. -/
def get_all_volumes (out : String) : List LVRecord :=
  (chunk3 (pySplit out)).map (fun t => ⟨t.1, t.2.1, t.2.2⟩)

/-- The `pvs` inventory command built by `LVM.get_all_physical_volumes`. -/
def pvs_cmd (vg_name : Option String) : List String :=
  ["pvs", "--noheadings", "-o", "vg_name,name,size,free", "--separator", ":"] ++
    (match vg_name with | some v => [v] | none => [])

/-- One loop iteration of `LVM.get_all_physical_volumes`: split a token on
single colons and build the PV dict from fields 0..3; a subscript past the
end raises `IndexError`. -/
def parsePV (tok : String) : Except PyError Dict :=
  match pySplitSep ':' tok with
  | f0 :: f1 :: f2 :: f3 :: _ =>
      .ok [("vg", f0), ("name", f1), ("size", f2), ("available", f3)]
  | _ => .error .indexError

/-- The `for pv in pvs` loop: build records left to right, raising at the
first malformed token. -/
def mapPV : List String → Except PyError (List Dict)
  | [] => .ok []
  | t :: ts =>
    match parsePV t with
    | .error e => .error e
    | .ok d =>
      match mapPV ts with
      | .error e => .error e
      | .ok ds => .ok (d :: ds)

/-- `LVM.get_all_physical_volumes` applied to the raw `pvs` output. -/
def get_all_physical_volumes (out : String) : Except PyError (List Dict) :=
  mapPV (pySplit out)

/-- The `vgs` inventory command built by `LVM.get_all_volume_groups`. -/
def vgs_summary_cmd (vg_name : Option String) : List String :=
  ["vgs", "--noheadings", "-o", "name,size,free,lv_count,uuid", "--separator", ":"] ++
    (match vg_name with | some v => [v] | none => [])

/-- One loop iteration of `LVM.get_all_volume_groups`: five colon-separated
fields keyed name/size/available/lv_count/uuid. -/
def parseVG (tok : String) : Except PyError Dict :=
  match pySplitSep ':' tok with
  | f0 :: f1 :: f2 :: f3 :: f4 :: _ =>
      .ok [("name", f0), ("size", f1), ("available", f2),
           ("lv_count", f3), ("uuid", f4)]
  | _ => .error .indexError

/-- The `for vg in vgs` loop of `get_all_volume_groups`. -/
def mapVG : List String → Except PyError (List Dict)
  | [] => .ok []
  | t :: ts =>
    match parseVG t with
    | .error e => .error e
    | .ok d =>
      match mapVG ts with
      | .error e => .error e
      | .ok ds => .ok (d :: ds)

/-- `LVM.get_all_volume_groups` applied to the raw `vgs` output. -/
def get_all_volume_groups (out : String) : Except PyError (List Dict) :=
  mapVG (pySplit out)

/-- `LVM.update_volume_group_info`, modelled as a function of the raw output
of the inventory command it actually runs. The source calls
`self.get_all_physical_volumes(self.vg_name)` (the `pvs` query), binds the
result to `vg_list`, and then reads `vg_list[0]["size"]`,
`vg_list[0]["available"]`, `vg_list[0]["lv_count"]`, `vg_list[0]["uuid"]`,
returning `vg_list[0]`. On success the result carries the four cached fields
(`vg_size`, `vg_available_space`, `vg_lv_count`, `vg_uuid`) and the returned
record; the field reads happen in source order, so the first missing key
determines the `KeyError`. -/
def update_volume_group_info (out : String) :
    Except PyError (String × String × String × String × Dict) :=
  match get_all_physical_volumes out with
  | .error e => .error e
  | .ok vg_list =>
    match vg_list.get? 0 with
    | none => .error .indexError
    | some first =>
      match dictGet first "size" with
      | none => .error (.keyError "size")
      | some s =>
        match dictGet first "available" with
        | none => .error (.keyError "available")
        | some a =>
          match dictGet first "lv_count" with
          | none => .error (.keyError "lv_count")
          | some l =>
            match dictGet first "uuid" with
            | none => .error (.keyError "uuid")
            | some u => .ok (s, a, l, u, first)

/-- `LVM.get_volume(name)` as a function of the fresh `lvs` output for the
bound VG: the first record of the re-fetched list whose `name` field equals
the argument, or `None` (here `none`) when no record matches. -/
def get_volume (out : String) (name : String) : Option LVRecord :=
  (get_all_volumes out).find? (fun r => r.name == name)

/-- Result of `LVM.create_lv_snapshot`: either the Python return value
`False` with no `lvcreate` executed, or the `lvcreate` command issued. -/
inductive SnapshotResult where
  /-- Source LV not found: `LOG.error(_("FAIL")); return False`. -/
  | failed : SnapshotResult
  /-- The snapshot-create command handed to `putils.execute`. -/
  | executed (cmd : List String) : SnapshotResult
  deriving Repr, DecidableEq

/-- `LVM.create_lv_snapshot(name, source_lv_name, type)` as a function of
the fresh `lvs` output used by its `get_volume` lookup. -/
def create_lv_snapshot (out : String) (vg_name name source_lv_name : String)
    (type : String) : SnapshotResult :=
  match get_volume out source_lv_name with
  | none => .failed
  | some source_lvref =>
    let cmd := ["lvcreate", "--name", name,
                "--snapshot", vg_name ++ "/" ++ source_lv_name]
    let cmd := if type != "thin" then cmd ++ ["-L", source_lvref.size] else cmd
    .executed cmd

/-- The error raised by `LVM.__init__` when the VG is absent
(`VolumeGroupNotFound`, message built from `vg_name`). -/
inductive InitError where
  | volumeGroupNotFound (vg_name : String) : InitError
  deriving Repr, DecidableEq

/-- The `vgs` name-list command run by `LVM._vg_exists`. -/
def vgs_names_cmd : List String := ["vgs", "--noheadings", "-o", "name"]

/-- `LVM._vg_exists` applied to the raw output of `vgs -o name`:
membership of `vg_name` in `out.split()`. -/
def vg_exists (out : String) (vg_name : String) : Bool :=
  (pySplit out).contains vg_name

/-- `LVM.__init__(vg_name, create_vg, physical_volumes)`, modelled as the
list of commands it executes plus its outcome. `vgsOut` is the output of the
`vgs -o name` query seen by `_vg_exists`. The `vgcreate` command is issued
only when `create_vg` is true AND `physical_volumes is not None`; the
existence check then runs unconditionally and raises `VolumeGroupNotFound`
when the name is absent. -/
def LVM_init (vgsOut : String) (vg_name : String) (create_vg : Bool)
    (physical_volumes : Option (List String)) :
    List (List String) × Except InitError Unit :=
  let createCmds :=
    match create_vg, physical_volumes with
    | true, some pv_list => [["vgcreate", vg_name, String.intercalate "," pv_list]]
    | _, _ => []
  let cmds := createCmds ++ [vgs_names_cmd]
  if vg_exists vgsOut vg_name then (cmds, .ok ())
  else (cmds, .error (.volumeGroupNotFound vg_name))

/-- The mirror-region size `int(2 ** math.ceil(math.log(terras) /
math.log(2)))`, with the float logarithms modelled exactly:
`ceil(log2 t)` is `Int.clog 2 t`. For the guarded range `t ≥ 1.5` the
exponent is at least 1, so the natural-number power below is exact. -/
def mirror_region_size (terras : ℚ) : ℕ :=
  2 ^ (Int.clog 2 terras).toNat

/-- `r` is the least power of two at or above `t`. -/
def is_least_pow2_ge (r : ℕ) (t : ℚ) : Prop :=
  (∃ j : ℕ, r = 2 ^ j) ∧ t ≤ (r : ℚ) ∧ ∀ k : ℕ, t ≤ (2 : ℚ) ^ k → r ≤ 2 ^ k

/-- `LVM.create_volume(name, size, type, mirror_count)` as the `lvcreate`
command it builds. `terras = int(size[:-1]) / 1024.0` is exact rational
division; `int()` on a non-numeric prefix raises `ValueError`. The `-R`
flag is appended only when `mirror_count > 0` and `terras >= 1.5`. -/
def create_volume (vg_name name size : String) (type : String)
    (mirror_count : ℕ) : Except PyError (List String) :=
  let cmd := ["lvcreate", "-n", name, vg_name]
  let cmd := if type == "thin" then cmd ++ ["-T", "-V", size]
             else cmd ++ ["-L", size]
  if mirror_count > 0 then
    let cmd := cmd ++ ["-m", toString mirror_count, "--nosync"]
    match pyInt (strDropLast size) with
    | none => .error .valueError
    | some sz =>
      let terras : ℚ := (sz : ℚ) / 1024
      if 3 / 2 ≤ terras then
        .ok (cmd ++ ["-R", toString (mirror_region_size terras)])
      else .ok cmd
  else .ok cmd

/-! ### The remote execution retry loop (`cinder/volume/utils.py`, `_run_ssh`) -/

/-- Failure of one `utils.ssh_execute` call. Both classes are subclasses of
`Exception` and are caught alike by the bare `except Exception` of the loop. -/
inductive SshFailure where
  /-- Command was delivered and ran, but exited non-zero
  (`ProcessExecutionError`). -/
  | execError (exit_code : ℕ) (stderr : String) : SshFailure
  /-- Transport-level failure (connection refused, session drop, timeout). -/
  | transportError (msg : String) : SshFailure
  deriving Repr, DecidableEq

/-- The error `_run_ssh` raises after the loop:
`paramiko.SSHException` whose payload (`locals()`) carries
`total_attempts` and `command`. -/
inductive RunSshError where
  | sshException (total_attempts : ℕ) (command : String) : RunSshError
  deriving Repr, DecidableEq

/-- The `while attempts > 0` loop of `_run_ssh`. `transport i` is the result
of the i-th `utils.ssh_execute` call; every exception is caught, logged and
(after a backoff sleep) retried. The first component counts the
`ssh_execute` calls actually made. -/
def run_ssh_loop (command : String) (total_attempts : ℕ)
    (transport : ℕ → Except SshFailure (String × String)) :
    ℕ → ℕ → ℕ × Except RunSshError (String × String)
  | _, 0 => (0, .error (.sshException total_attempts command))
  | i, n + 1 =>
    match transport i with
    | .ok result => (1, .ok result)
    | .error _ =>
      let rest := run_ssh_loop command total_attempts transport (i + 1) n
      (rest.1 + 1, rest.2)

/-- `_run_ssh(command, check_exit_code, attempts)`: saves
`total_attempts = attempts`, runs the loop, and re-raises whatever escapes
(the outer `except Exception as e: ... raise e` preserves the error). -/
def run_ssh (command : String) (attempts : ℕ)
    (transport : ℕ → Except SshFailure (String × String)) :
    ℕ × Except RunSshError (String × String) :=
  run_ssh_loop command attempts transport 0 attempts

/-! ### Snapshot revert (`LVM.revert` and `blk_local/lv_utils.py` `revert`) -/

/-- `LVM.revert(snapshot_name)`: the commands it executes. There is no
lookup of any kind; the single `lvconvert --merge` is issued
unconditionally. -/
def LVM_revert (snapshot_name : String) : List (List String) :=
  [["lvconvert", "--merge", snapshot_name]]

/-- Whether `pre` is an initial segment of `l`. -/
def startsWith : List Char → List Char → Bool
  | [], _ => true
  | _ :: _, [] => false
  | a :: as, b :: bs => a == b && startsWith as bs

/-- Substring containment on character lists. -/
def pyContains (needle : List Char) : List Char → Bool
  | [] => needle.isEmpty
  | c :: rest => startsWith needle (c :: rest) || pyContains needle rest

/-- Python `needle in hay` substring test. -/
def pyIn (needle hay : String) : Bool :=
  pyContains needle.toList hay.toList

/-- The `for line in out` scan of `lv_utils.get` when `vg_name is None`.
`out` is a string, so the loop iterates over its CHARACTERS; for the first
single-character line containing `name`, `line.split()` is consulted: with
more than one field, field 1 becomes the VG name (`break`); otherwise the
bare `raise` fires (`RuntimeError`, no active exception). If no line
matches, `vg_name` stays `None` and the second bare `raise` fires. -/
def discoverVg (lvsOut : String) (name : String) : Except PyError String :=
  match lvsOut.toList.map (fun c => String.mk [c])
      |>.find? (fun line => pyIn name line) with
  | none => .error .runtimeError
  | some line =>
    match (pySplit line).get? 1 with
    | some v => .ok v
    | none => .error .runtimeError

/-- `re.split` on two-or-more whitespace characters: group the characters
into maximal same-class runs, treat whitespace runs of length at least 2 as
separators, and keep shorter whitespace inside fields (leading and trailing
separators produce empty fields, as in Python). -/
def splitRuns2 (s : String) : List String :=
  let runs := s.toList.splitBy (fun a b => a.isWhitespace == b.isWhitespace)
  let step := fun (acc : List String × String) (run : List Char) =>
    if run.length ≥ 2 && (run.headD 'x').isWhitespace then
      (acc.1 ++ [acc.2], "")
    else (acc.1, acc.2 ++ String.mk run)
  let fin := runs.foldl step ([], "")
  fin.1 ++ [fin.2]

/-- Python `del l[-1]`: `IndexError` on an empty list. -/
def pyDelLast (l : List String) : Except PyError (List String) :=
  if l.isEmpty then .error .indexError else .ok l.dropLast

/-- Python `del l[0]`: `IndexError` on an empty list. -/
def pyDelHead (l : List String) : Except PyError (List String) :=
  match l with
  | [] => .error .indexError
  | _ :: t => .ok t

/-- A dict whose values may be Python `None`:
`dict(map(None, *[iter(fo)] * 2))` pads an odd trailing key with `None`. -/
def Dict2 := List (String × Option String)

/-- `map(None, *[iter(l)] * 2)`: consecutive pairs, odd leftover paired
with `None`. -/
def chunk2 : List String → Dict2
  | a :: b :: rest => (a, some b) :: chunk2 rest
  | [a] => [(a, none)]
  | [] => []

/-- Dict lookup on a `Dict2`. -/
def dict2Get (d : Dict2) (k : String) : Option (Option String) :=
  match d with
  | [] => none
  | (k₁, v) :: rest => if k₁ = k then some v else dict2Get rest k

/-- `lv_utils.get(name, vg_name)`. `lvsOut` is the output of the
name-discovery `lvs` query (used only when `vg_name` is `None`);
`lvdisplay p` is the result of `putils.execute("lvdisplay", p)`, an
execution error when no LV lives at path `p`. On success the raw
`lvdisplay` table is split on two-or-more-whitespace runs, the last and
first two entries are deleted, and the rest is paired into a dict. -/
def lv_utils_get (lvsOut : String)
    (lvdisplay : String → Except PyError String)
    (name : String) (vg_name : Option String) : Except PyError Dict2 :=
  match (match vg_name with
         | some v => Except.ok v
         | none => discoverVg lvsOut name) with
  | .error e => .error e
  | .ok vg =>
    let lv_path := vg ++ "/" ++ name
    match lvdisplay lv_path with
    | .error e => .error e
    | .ok out =>
      match pyDelLast (splitRuns2 out) with
      | .error e => .error e
      | .ok fo =>
        match pyDelHead fo with
        | .error e => .error e
        | .ok fo =>
          match pyDelHead fo with
          | .error e => .error e
          | .ok fo => .ok (chunk2 fo)

/-- `lv_utils.revert(snapshot_name, vg_name)`: looks the snapshot up via
`get` (propagating its failure, with no further command) and only then
issues `lvconvert --merge` on `lv_ref["LV Name"]`. A `None` dict value
reaching the command line is stringified by the process layer. -/
def lv_utils_revert (lvsOut : String)
    (lvdisplay : String → Except PyError String)
    (snapshot_name : String) (vg_name : Option String) :
    Except PyError (List String) :=
  match lv_utils_get lvsOut lvdisplay snapshot_name vg_name with
  | .error e => .error e
  | .ok lv_ref =>
    match dict2Get lv_ref "LV Name" with
    | none => .error (.keyError "LV Name")
    | some v => .ok ["lvconvert", "--merge", v.getD "None"]

/-! ### Helper lemmas -/

theorem mapPV_cons_ok {t : String} {ts : List String} {d : Dict} {ds : List Dict}
    (h : mapPV (t :: ts) = .ok (d :: ds)) : parsePV t = .ok d := by
  unfold mapPV at h
  cases hp : parsePV t with
  | error e => rw [hp] at h; exact absurd h (by simp)
  | ok d₀ =>
    rw [hp] at h
    cases hm : mapPV ts with
    | error e => rw [hm] at h; exact absurd h (by simp)
    | ok ds₀ =>
      rw [hm] at h
      simp only [Except.ok.injEq, List.cons.injEq] at h
      rw [h.1]

theorem parsePV_ok_keys {tok : String} {d : Dict} (h : parsePV tok = .ok d) :
    dictGet d "lv_count" = none ∧
      (∃ v, dictGet d "size" = some v) ∧ ∃ v, dictGet d "available" = some v := by
  unfold parsePV at h
  split at h
  · rename_i f0 f1 f2 f3 rest heq
    simp only [Except.ok.injEq] at h
    subst h
    exact ⟨rfl, ⟨f2, rfl⟩, ⟨f3, rfl⟩⟩
  · exact absurd h (by simp)

theorem get_volume_none {out name : String}
    (h : ∀ r ∈ get_all_volumes out, r.name ≠ name) :
    get_volume out name = none := by
  unfold get_volume
  refine List.find?_eq_none.mpr (fun r hr => ?_)
  simpa using h r hr

theorem get_volume_some {out name : String} {r : LVRecord}
    (h : get_volume out name = some r) :
    r ∈ get_all_volumes out ∧ r.name = name := by
  unfold get_volume at h
  refine ⟨List.mem_of_find?_eq_some h, ?_⟩
  simpa using List.find?_some h

/-! ### Claim theorems -/

/-- C1: `update_volume_group_info` is documented (both in the spec and in
its own docstring) to refresh the cached VG summary fields from the
VG-level inventory, but the source queries the PV-level inventory
(`get_all_physical_volumes`) instead. Whenever that query returns at least
one record, the field read `vg_list[0]["lv_count"]` raises `KeyError`
because PV records carry only vg/name/size/available. -/
theorem update_volume_group_info_keyerror (out : String) (d : Dict)
    (rest : List Dict) (h : get_all_physical_volumes out = .ok (d :: rest)) :
    update_volume_group_info out = .error (.keyError "lv_count") := by
  have hparse : parsePV ((pySplit out).headD "") = .ok d := by
    unfold get_all_physical_volumes at h
    cases hts : pySplit out with
    | nil => rw [hts] at h; exact absurd h (by simp [mapPV])
    | cons t ts =>
      rw [hts] at h
      simpa using mapPV_cons_ok h
  obtain ⟨hlv, ⟨s, hs⟩, ⟨a, ha⟩⟩ := parsePV_ok_keys hparse
  unfold update_volume_group_info
  rw [h]
  simp only [List.get?_cons_zero]
  rw [hs, ha, hlv]

/-- C1 witness: a concrete single-PV `pvs` output on which
`update_volume_group_info` raises `KeyError` on `lv_count`. -/
theorem update_volume_group_info_keyerror_witness :
    get_all_physical_volumes "vg0:pv0:10.00g:5.00g" =
        .ok [[("vg", "vg0"), ("name", "pv0"),
              ("size", "10.00g"), ("available", "5.00g")]] ∧
      update_volume_group_info "vg0:pv0:10.00g:5.00g" =
        .error (.keyError "lv_count") :=
  ⟨rfl, update_volume_group_info_keyerror "vg0:pv0:10.00g:5.00g"
    [("vg", "vg0"), ("name", "pv0"), ("size", "10.00g"), ("available", "5.00g")]
    [] rfl⟩

/-- C9: `get_volume(name)` returns a record of the freshly parsed LV
inventory whose `name` field is exactly the requested name, and returns the
absent-result indicator `none` (not an exception) when no record matches
exactly. -/
theorem get_volume_exact_lookup (out name : String) :
    (∀ r, get_volume out name = some r →
        r ∈ get_all_volumes out ∧ r.name = name) ∧
      ((∀ r ∈ get_all_volumes out, r.name ≠ name) →
        get_volume out name = none) :=
  ⟨fun _ hr => get_volume_some hr, fun h => get_volume_none h⟩

/-- C9 witness: `lvA` is not matched by the record named `lvAB` even though
it occurs as a substring; the lookup returns `none`. -/
theorem get_volume_exact_lookup_witness :
    (∀ r ∈ get_all_volumes "vg0 lvAB 7.00g", r.name ≠ "lvA") ∧
      get_volume "vg0 lvAB 7.00g" "lvA" = none :=
  ⟨by decide, (get_volume_exact_lookup "vg0 lvAB 7.00g" "lvA").2 (by decide)⟩

/-- C8: `create_lv_snapshot` first looks the source LV up in the refreshed
inventory; with no exact-name match it fails at once (`return False`) and
no snapshot-create command is executed, and with a match and a non-thin
kind the issued command carries `-L` with the source LV size. -/
theorem create_lv_snapshot_source_check (out vg nm src ty : String) :
    ((∀ r ∈ get_all_volumes out, r.name ≠ src) →
        create_lv_snapshot out vg nm src ty = .failed) ∧
      (∀ r, get_volume out src = some r → ty ≠ "thin" →
        create_lv_snapshot out vg nm src ty =
          .executed ["lvcreate", "--name", nm, "--snapshot", vg ++ "/" ++ src,
                     "-L", r.size]) := by
  constructor
  · intro h
    unfold create_lv_snapshot
    rw [get_volume_none h]
  · intro r hr hty
    unfold create_lv_snapshot
    rw [hr]
    simp only [bne_iff_ne, ne_eq, hty, not_false_eq_true, if_true]
    rfl

/-- C8 witness: with `lvB` absent from the inventory no command is issued,
and with source `lvA` of size `5.00g` present the non-thin snapshot command
reserves exactly that size. -/
theorem create_lv_snapshot_source_check_witness :
    ((∀ r ∈ get_all_volumes "vg0 lvA 5.00g", r.name ≠ "lvB") ∧
        create_lv_snapshot "vg0 lvA 5.00g" "vg0" "snap1" "lvB" "default" =
          .failed) ∧
      (get_volume "vg0 lvA 5.00g" "lvA" =
          some ⟨"vg0", "lvA", "5.00g"⟩ ∧ ("default" : String) ≠ "thin" ∧
        create_lv_snapshot "vg0 lvA 5.00g" "vg0" "snap1" "lvA" "default" =
          .executed ["lvcreate", "--name", "snap1", "--snapshot", "vg0/lvA",
                     "-L", "5.00g"]) :=
  ⟨⟨by decide,
    (create_lv_snapshot_source_check "vg0 lvA 5.00g" "vg0" "snap1" "lvB"
      "default").1 (by decide)⟩,
   ⟨rfl, by decide,
    (create_lv_snapshot_source_check "vg0 lvA 5.00g" "vg0" "snap1" "lvA"
      "default").2 ⟨"vg0", "lvA", "5.00g"⟩ rfl (by decide)⟩⟩

/-- C7: constructing the manager checks the VG against the system VG name
list (the `vgs -o name` query is always among the commands issued); when
the name is absent from that list the constructor raises
`VolumeGroupNotFound` carrying the name, so no usable instance results. -/
theorem LVM_init_absent_vg (vgsOut vg_name : String) (create_vg : Bool)
    (physical_volumes : Option (List String))
    (h : vg_name ∉ pySplit vgsOut) :
    vgs_names_cmd ∈ (LVM_init vgsOut vg_name create_vg physical_volumes).1 ∧
      (LVM_init vgsOut vg_name create_vg physical_volumes).2 =
        .error (.volumeGroupNotFound vg_name) := by
  have hc : vg_exists vgsOut vg_name = false := by
    unfold vg_exists
    simpa using h
  unfold LVM_init
  rw [hc]
  exact ⟨by simp, rfl⟩

/-- C7 witness: constructing against a system holding `vg0` and `vg1` with
the absent name `vg2` fails with `VolumeGroupNotFound vg2`. -/
theorem LVM_init_absent_vg_witness :
    "vg2" ∉ pySplit "vg0  vg1" ∧
      (vgs_names_cmd ∈ (LVM_init "vg0  vg1" "vg2" false none).1 ∧
        (LVM_init "vg0  vg1" "vg2" false none).2 =
          .error (.volumeGroupNotFound "vg2")) :=
  ⟨by decide, LVM_init_absent_vg "vg0  vg1" "vg2" false none (by decide)⟩

/-- C10: with `create_vg = true` but `physical_volumes = None`, the guard
`create_vg and physical_volumes is not None` is false, so no `vgcreate`
command is issued at all; construction degrades to the plain existence
check and fails with `VolumeGroupNotFound` exactly when the VG is absent
from the system list. -/
theorem LVM_init_create_without_pvs (vgsOut vg_name : String) :
    (LVM_init vgsOut vg_name true none).1 = [vgs_names_cmd] ∧
      ((LVM_init vgsOut vg_name true none).2 = .ok () ↔
        vg_name ∈ pySplit vgsOut) ∧
      (vg_name ∉ pySplit vgsOut →
        (LVM_init vgsOut vg_name true none).2 =
          .error (.volumeGroupNotFound vg_name)) := by
  have hiff : (vg_exists vgsOut vg_name = true) ↔ vg_name ∈ pySplit vgsOut :=
    List.elem_iff
  by_cases hmem : vg_name ∈ pySplit vgsOut
  · have hb := hiff.mpr hmem
    exact ⟨by simp [LVM_init, hb], by simp [LVM_init, hb, hmem],
           fun hne => absurd hmem hne⟩
  · have hb : vg_exists vgsOut vg_name = false := by
      cases hv : vg_exists vgsOut vg_name
      · rfl
      · exact absurd (hiff.mp hv) hmem
    exact ⟨by simp [LVM_init, hb], by simp [LVM_init, hb, hmem],
           fun _ => by simp [LVM_init, hb]⟩

/-- C10 witness: `create_vg = true`, `physical_volumes = None`, VG absent:
the only command run is the `vgs` existence query and construction fails. -/
theorem LVM_init_create_without_pvs_witness :
    (LVM_init "vg0" "vgX" true none).1 = [vgs_names_cmd] ∧
      ("vgX" ∉ pySplit "vg0" ∧
        (LVM_init "vg0" "vgX" true none).2 =
          .error (.volumeGroupNotFound "vgX")) :=
  ⟨(LVM_init_create_without_pvs "vg0" "vgX").1,
   by decide, (LVM_init_create_without_pvs "vg0" "vgX").2.2 (by decide)⟩

theorem chunk3_length : ∀ l : List String, (chunk3 l).length = l.length / 3
  | [] => by simp [chunk3]
  | [_] => by simp [chunk3]
  | [_, _] => by simp [chunk3]
  | _ :: _ :: _ :: rest => by
    simp only [chunk3, List.length_cons, chunk3_length rest]
    omega

theorem parsePV_short {tok : String} (h : (pySplitSep ':' tok).length < 4) :
    parsePV tok = .error .indexError := by
  unfold parsePV
  split
  · rename_i f0 f1 f2 f3 rest heq
    rw [heq] at h
    simp at h
    omega
  · rfl

theorem parsePV_long {tok : String} (h : 4 ≤ (pySplitSep ':' tok).length) :
    ∃ d, parsePV tok = .ok d := by
  unfold parsePV
  split
  · exact ⟨_, rfl⟩
  · rename_i hna
    match hf : pySplitSep ':' tok with
    | [] | [_] | [_, _] | [_, _, _] =>
      rw [hf] at h
      simp at h
    | f0 :: f1 :: f2 :: f3 :: rest => exact absurd hf (hna f0 f1 f2 f3 rest)

theorem mapPV_error_of_short {l : List String} {tok : String}
    (hmem : tok ∈ l) (hshort : (pySplitSep ':' tok).length < 4) :
    mapPV l = .error .indexError := by
  induction l with
  | nil => exact absurd hmem (List.not_mem_nil tok)
  | cons t ts ih =>
    unfold mapPV
    rcases List.mem_cons.mp hmem with heq | htail
    · subst heq
      rw [parsePV_short hshort]
    · by_cases hlen : (pySplitSep ':' t).length < 4
      · rw [parsePV_short hlen]
      · obtain ⟨d, hd⟩ := @parsePV_long t (by omega)
        rw [hd, ih htail]

/-- C4 counterexample: an LV inventory output whose field count is four
rather than three is silently truncated to one three-field record with no
error of any kind, and a PV row with three colon-separated fields raises a
bare `IndexError` that carries neither the offending line nor the expected
field count; in neither case is a `ParseError{line, expected_fields}`
raised. -/
theorem parse_arity_counterexample :
    get_all_volumes "vg0 lvA 1.00g orphan" =
        [{ vg := "vg0", name := "lvA", size := "1.00g" }] ∧
      get_all_physical_volumes "vg0:pv0:10.00g" = .error .indexError :=
  ⟨rfl, rfl⟩

/-- C4 amended: the LV parser never raises on a wrong field count — it
splits the whole output on whitespace and groups the tokens into
consecutive triples, silently dropping leftover tokens (record count is
the token count divided by 3) — and the PV parser fails on any row with
fewer than four colon-separated fields, but with a payload-free
`IndexError` instead of a `ParseError` carrying the line and the expected
field count. -/
theorem parse_arity_behavior (out : String) :
    ((get_all_volumes out).length = (pySplit out).length / 3) ∧
      (∀ tok ∈ pySplit out, (pySplitSep ':' tok).length < 4 →
        get_all_physical_volumes out = .error .indexError) := by
  constructor
  · simp [get_all_volumes, chunk3_length]
  · intro tok hmem hshort
    exact mapPV_error_of_short hmem hshort

/-- C4 amended witness: four whitespace tokens give one LV record
(4 / 3 = 1), and the short PV row `vg0:pv0:10.00g` makes the whole PV
parse fail with `IndexError`. -/
theorem parse_arity_behavior_witness :
    ((get_all_volumes "vg0 lvA 1.00g orphan").length =
        (pySplit "vg0 lvA 1.00g orphan").length / 3) ∧
      ("vg0:pv0:10.00g" ∈ pySplit "vg0:pv0:10.00g" ∧
        (pySplitSep ':' "vg0:pv0:10.00g").length < 4 ∧
        get_all_physical_volumes "vg0:pv0:10.00g" = .error .indexError) :=
  ⟨(parse_arity_behavior "vg0 lvA 1.00g orphan").1,
   by decide, by decide,
   (parse_arity_behavior "vg0:pv0:10.00g").2 "vg0:pv0:10.00g" (by decide)
     (by decide)⟩

/-- C3 counterexample: `LVM.revert` consults no inventory at all — it is a
function of the snapshot name only — so for the name `ghost`, which can
correspond to no snapshot (no system state is even read), the merge command
`lvconvert --merge ghost` is nevertheless issued. -/
theorem LVM_revert_counterexample :
    LVM_revert "ghost" = [["lvconvert", "--merge", "ghost"]] :=
  rfl

/-- C3 amended: only the `blk_local` helper checks existence first — its
`get` (an `lvdisplay` of `vg_name/snapshot_name`) fails with the
not-found-class execution error before any merge command is issued — while
`LVM.revert` performs no check and unconditionally issues the single
`lvconvert --merge snapshot_name` command, so a nonexistent snapshot
surfaces there only as the failure of the already-issued merge command. -/
theorem revert_lookup_behavior :
    (∀ snapshot_name : String,
        LVM_revert snapshot_name = [["lvconvert", "--merge", snapshot_name]]) ∧
      (∀ (lvsOut : String) (lvdisplay : String → Except PyError String)
          (snapshot_name vg : String) (e : PyError),
        lvdisplay (vg ++ "/" ++ snapshot_name) = .error e →
        lv_utils_revert lvsOut lvdisplay snapshot_name (some vg) = .error e) := by
  refine ⟨fun _ => rfl, fun lvsOut lvdisplay snapshot_name vg e h => ?_⟩
  simp [lv_utils_revert, lv_utils_get, h]

/-- C3 amended witness: with an `lvdisplay` that fails on every path (no LV
exists), the `blk_local` revert propagates the lookup failure and issues no
merge command. -/
theorem revert_lookup_behavior_witness :
    (fun _ : String => (Except.error PyError.processExecutionError :
          Except PyError String)) ("vg0" ++ "/" ++ "ghost") =
        .error PyError.processExecutionError ∧
      lv_utils_revert ""
          (fun _ => .error PyError.processExecutionError) "ghost" (some "vg0") =
        .error PyError.processExecutionError :=
  ⟨rfl, revert_lookup_behavior.2 ""
    (fun _ => .error PyError.processExecutionError) "ghost" "vg0"
    PyError.processExecutionError rfl⟩

theorem run_ssh_loop_all_fail (command : String) (total : ℕ)
    (transport : ℕ → Except SshFailure (String × String)) :
    ∀ (n i : ℕ), (∀ k, k < n → ∃ e, transport (i + k) = .error e) →
      run_ssh_loop command total transport i n =
        (n, .error (.sshException total command)) := by
  intro n
  induction n with
  | zero => intro i _; rfl
  | succ m ih =>
    intro i h
    obtain ⟨e, he⟩ := h 0 (by omega)
    have he2 : transport i = .error e := by simpa using he
    have hrest : ∀ k, k < m → ∃ e, transport (i + 1 + k) = .error e := by
      intro k hk
      obtain ⟨e₂, he₃⟩ := h (k + 1) (by omega)
      exact ⟨e₂, by rwa [show i + (k + 1) = i + 1 + k by omega] at he₃⟩
    unfold run_ssh_loop
    rw [he2]
    simp [ih (i + 1) hrest]

theorem run_ssh_loop_first_ok (command : String) (total : ℕ)
    (transport : ℕ → Except SshFailure (String × String)) :
    ∀ (j n i : ℕ) (out : String × String), j < n →
      transport (i + j) = .ok out →
      (∀ k, k < j → ∃ e, transport (i + k) = .error e) →
      run_ssh_loop command total transport i n = (j + 1, .ok out) := by
  intro j
  induction j with
  | zero =>
    intro n i out hn hok _
    cases n with
    | zero => omega
    | succ m =>
      unfold run_ssh_loop
      rw [show transport i = .ok out from by simpa using hok]
  | succ jm ih =>
    intro n i out hn hok herr
    cases n with
    | zero => omega
    | succ m =>
      obtain ⟨e, he⟩ := herr 0 (by omega)
      have he2 : transport i = .error e := by simpa using he
      have hok2 : transport (i + 1 + jm) = .ok out := by
        rwa [show i + (jm + 1) = i + 1 + jm by omega] at hok
      have herr2 : ∀ k, k < jm → ∃ e, transport (i + 1 + k) = .error e := by
        intro k hk
        obtain ⟨e₂, h₃⟩ := herr (k + 1) (by omega)
        exact ⟨e₂, by rwa [show i + (k + 1) = i + 1 + k by omega] at h₃⟩
      unfold run_ssh_loop
      rw [he2]
      simp [ih m (i + 1) out (by omega) hok2 herr2]

/-- C2 counterexample: an execution-level failure — exit code 5 from a
successfully delivered command — on the first attempt is caught, slept on
and retried like any transport failure; the second attempt then succeeds,
so the execution-level failure never propagated to the caller, and the
logically-failed command was re-executed. -/
theorem run_ssh_exec_error_retried_counterexample :
    run_ssh "mkfs /dev/vg0/lv" 2
        (fun i => if i == 0 then .error (.execError 5 "mkfs failed")
                  else .ok ("done", "")) =
      (2, .ok ("done", "")) :=
  rfl

/-- C2 amended: the bare `except Exception` of the retry loop does not
distinguish failure classes — any failure of an attempt, execution-level
and transport-level alike, triggers the backoff sleep and a further
attempt; a later successful attempt hides all earlier failures, and only
exhaustion of the whole budget raises, as the generic `SSHException`. -/
theorem run_ssh_retries_all_failure_classes (command : String) (attempts : ℕ)
    (transport : ℕ → Except SshFailure (String × String)) :
    (∀ (i : ℕ) (out : String × String), i < attempts → transport i = .ok out →
        (∀ j, j < i → ∃ e, transport j = .error e) →
        run_ssh command attempts transport = (i + 1, .ok out)) ∧
      ((∀ i, i < attempts → ∃ e, transport i = .error e) →
        run_ssh command attempts transport =
          (attempts, .error (.sshException attempts command))) := by
  constructor
  · intro i out hi hok herr
    unfold run_ssh
    exact run_ssh_loop_first_ok command attempts transport i attempts 0 out hi
      (by simpa using hok) (fun k hk => by simpa using herr k hk)
  · intro h
    unfold run_ssh
    exact run_ssh_loop_all_fail command attempts transport attempts 0
      (fun k hk => by simpa using h k hk)

/-- C2 amended witness: attempt 0 fails with a non-zero exit, attempt 1
succeeds, and the loop returns the success after two executions. -/
theorem run_ssh_retries_all_failure_classes_witness :
    ((1 : ℕ) < 2 ∧
        (fun i : ℕ =>
            if i == 0 then
              (Except.error (SshFailure.execError 5 "mkfs failed") :
                Except SshFailure (String × String))
            else .ok ("done", "")) 1 = .ok ("done", "")) ∧
      run_ssh "mkfs /dev/vg0/lv" 2
          (fun i => if i == 0 then .error (.execError 5 "mkfs failed")
                    else .ok ("done", "")) =
        (1 + 1, .ok ("done", "")) :=
  ⟨⟨by decide, rfl⟩,
   (run_ssh_retries_all_failure_classes "mkfs /dev/vg0/lv" 2
      (fun i => if i == 0 then .error (.execError 5 "mkfs failed")
                else .ok ("done", ""))).1 1 ("done", "") (by decide) rfl
     (fun j hj =>
       ⟨SshFailure.execError 5 "mkfs failed", by
         have hj0 : j = 0 := by omega
         subst hj0
         rfl⟩)⟩

/-- C5: with a perpetually failing transport and an attempt budget of 3,
`_run_ssh` makes exactly 3 `ssh_execute` calls and then raises the
`SSHException` whose payload carries `total_attempts = 3` and the command
string. -/
theorem run_ssh_exhausts_three_attempts (command : String)
    (transport : ℕ → Except SshFailure (String × String))
    (h : ∀ i, ∃ e, transport i = .error e) :
    run_ssh command 3 transport = (3, .error (.sshException 3 command)) := by
  unfold run_ssh
  exact run_ssh_loop_all_fail command 3 transport 3 0
    (fun k _ => by simpa using h k)

/-- C5 witness: a transport refusing every connection makes exactly three
attempts and fails with attempt count 3 and the command string. -/
theorem run_ssh_exhausts_three_attempts_witness :
    (∀ i : ℕ, ∃ e,
        (fun _ : ℕ =>
            (Except.error (SshFailure.transportError "connection refused") :
              Except SshFailure (String × String))) i = .error e) ∧
      run_ssh "vgs --noheadings" 3
          (fun _ => .error (.transportError "connection refused")) =
        (3, .error (.sshException 3 "vgs --noheadings")) :=
  ⟨fun _ => ⟨SshFailure.transportError "connection refused", rfl⟩,
   run_ssh_exhausts_three_attempts "vgs --noheadings"
     (fun _ => .error (.transportError "connection refused"))
     (fun _ => ⟨SshFailure.transportError "connection refused", rfl⟩)⟩

theorem mirror_region_size_least {t : ℚ} (ht : 3 / 2 ≤ t) :
    is_least_pow2_ge (mirror_region_size t) t := by
  have ht0 : 0 < t := lt_of_lt_of_le (by norm_num) ht
  have ht1 : 1 < t := lt_of_lt_of_le (by norm_num) ht
  have hb : (1 : ℕ) < 2 := one_lt_two
  have hnonneg : 0 ≤ Int.clog 2 t := by
    by_contra hneg
    push_neg at hneg
    have hle := (Int.le_zpow_iff_clog_le hb ht0).mpr (le_of_lt hneg)
    rw [zpow_zero] at hle
    linarith
  have hcast : Int.clog 2 t = ((Int.clog 2 t).toNat : ℤ) :=
    (Int.toNat_of_nonneg hnonneg).symm
  refine ⟨⟨(Int.clog 2 t).toNat, rfl⟩, ?_, ?_⟩
  · have h1 := Int.self_le_zpow_clog hb t
    rw [hcast, zpow_natCast] at h1
    unfold mirror_region_size
    push_cast
    exact h1
  · intro k hk
    have hkz : t ≤ (2 : ℚ) ^ (k : ℤ) := by rwa [zpow_natCast]
    have hck := (Int.le_zpow_iff_clog_le hb ht0).mp hkz
    rw [hcast] at hck
    have hmk : (Int.clog 2 t).toNat ≤ k := by exact_mod_cast hck
    exact Nat.pow_le_pow_right (by norm_num) hmk

/-- C6: for a size string with unit G parsing to `n` gigabytes and a
positive mirror count, the code adds no `-R` flag when `n / 1024 < 1.5`
(that is, `n < 1536`), and otherwise appends `-R` with the value
`2 ^ ceil(log2(n / 1024))`, which is the smallest power of two at or above
`n / 1024`; when `n / 1024` is itself a power of two, exactly that power is
used, with no doubling. The float logarithms of the source are modelled by
the exact ceiling base-2 logarithm on rationals. -/
theorem create_volume_region_flag (vg nm size : String) (n : ℤ) (mc : ℕ)
    (hp : pyInt (strDropLast size) = some n) (hmc : 0 < mc) :
    (n < 1536 →
        create_volume vg nm size "default" mc =
          .ok ["lvcreate", "-n", nm, vg, "-L", size,
               "-m", toString mc, "--nosync"]) ∧
      (1536 ≤ n →
        create_volume vg nm size "default" mc =
          .ok ["lvcreate", "-n", nm, vg, "-L", size,
               "-m", toString mc, "--nosync",
               "-R", toString (mirror_region_size ((n : ℚ) / 1024))] ∧
        is_least_pow2_ge (mirror_region_size ((n : ℚ) / 1024)) ((n : ℚ) / 1024) ∧
        ∀ j : ℕ, (n : ℚ) / 1024 = 2 ^ j →
          mirror_region_size ((n : ℚ) / 1024) = 2 ^ j) := by
  constructor
  · intro hlt
    have hcond : ¬(3 / 2 ≤ (n : ℚ) / 1024) := by
      rw [not_le, div_lt_div_iff₀ (by norm_num) (by norm_num)]
      have : (n : ℚ) < 1536 := by exact_mod_cast hlt
      linarith
    simp [create_volume, hp, hmc, hcond]
  · intro hge
    have hcond : 3 / 2 ≤ (n : ℚ) / 1024 := by
      rw [div_le_div_iff₀ (by norm_num) (by norm_num)]
      have : (1536 : ℚ) ≤ (n : ℚ) := by exact_mod_cast hge
      linarith
    have hleast := mirror_region_size_least hcond
    refine ⟨by simp [create_volume, hp, hmc, hcond], hleast, fun j hj => ?_⟩
    obtain ⟨_, hle, hmin⟩ := hleast
    have h1 : mirror_region_size ((n : ℚ) / 1024) ≤ 2 ^ j := hmin j (le_of_eq hj)
    have h2 : (2 : ℚ) ^ j ≤ (mirror_region_size ((n : ℚ) / 1024) : ℚ) := hj ▸ hle
    have h2n : 2 ^ j ≤ mirror_region_size ((n : ℚ) / 1024) := by
      exact_mod_cast h2
    exact le_antisymm h1 h2n

/-- C6 witness: `2048G` with two mirrors parses to 2048 gigabytes, which is
at least 1536, so the `-R` flag is appended and its value is the smallest
power of two at or above 2 terabytes, namely 2 itself (a power-of-two
boundary, not doubled). -/
theorem create_volume_region_flag_witness :
    pyInt (strDropLast "2048G") = some 2048 ∧ (0 : ℕ) < 2 ∧
      (1536 : ℤ) ≤ 2048 ∧
      (create_volume "vg0" "lvA" "2048G" "default" 2 =
          .ok ["lvcreate", "-n", "lvA", "vg0", "-L", "2048G",
               "-m", toString (2 : ℕ), "--nosync",
               "-R", toString (mirror_region_size (((2048 : ℤ) : ℚ) / 1024))] ∧
        is_least_pow2_ge (mirror_region_size (((2048 : ℤ) : ℚ) / 1024))
          (((2048 : ℤ) : ℚ) / 1024) ∧
        ∀ j : ℕ, ((2048 : ℤ) : ℚ) / 1024 = 2 ^ j →
          mirror_region_size (((2048 : ℤ) : ℚ) / 1024) = 2 ^ j) :=
  ⟨rfl, by decide, by decide,
   (create_volume_region_flag "vg0" "lvA" "2048G" 2048 2 rfl
      (by decide)).2 (by decide)⟩

end Cinder
